import Mathlib

/-!
Shallow embedding of the hostinger-mcp-server protocol/dispatch core.

Source files:
* `src/index.js` — stdio-bound entry point (26-tool catalog, health-check
  HTTP server, MCP SDK request handlers).
* the second server variant shipped alongside the README — Express-based
  HTTP/SSE entry point (`handleListTools`, `handleCallTool`,
  `setupExpressServer` with the `POST /mcp` JSON-RPC endpoint; 19-tool
  catalog).

JavaScript values flowing through the dispatcher are modelled by `Json`;
the JS `undefined` value is modelled by `Option Json` with `none` for
`undefined`.  The external collaborator (the wrapped Hostinger HTTP API,
reached through `fetch` inside `makeRequest`) is modelled as an oracle
`Collab` from an outbound request to either a JSON body or a failure
message; every computation that may perform outbound calls additionally
returns the ordered list of outbound requests it issued, so that
"no external call is made" is a statement about that trace.
Exceptions are modelled with `Except String`; the exact wording of
JS runtime `TypeError` messages is abbreviated (quotes elided), which no
claim depends on.  `JSON.stringify(x, null, 2)` is modelled without the
two-space indentation, which no claim depends on either.
-/

/-- JSON values (JS numbers restricted to integers, which is all the
dispatcher ever produces or compares). -/
inductive Json where
  | null : Json
  | bool : Bool → Json
  | num : Int → Json
  | str : String → Json
  | arr : List Json → Json
  | obj : List (String × Json) → Json

mutual

/-- Model of `JSON.stringify` (string escaping and the 2-space
indentation argument used in the source are abstracted away; no claim
inspects this output). -/
def jsonStringify : Json → String
  | Json.null => "null"
  | Json.bool b => if b then "true" else "false"
  | Json.num n => toString n
  | Json.str s => "\"" ++ s ++ "\""
  | Json.arr xs => "[" ++ jsonStringifyArr xs ++ "]"
  | Json.obj fs => "\x7b" ++ jsonStringifyObj fs ++ "\x7d"

def jsonStringifyArr : List Json → String
  | [] => ""
  | [x] => jsonStringify x
  | x :: xs => jsonStringify x ++ "," ++ jsonStringifyArr xs

def jsonStringifyObj : List (String × Json) → String
  | [] => ""
  | [(k, v)] => "\"" ++ k ++ "\":" ++ jsonStringify v
  | (k, v) :: fs => "\"" ++ k ++ "\":" ++ jsonStringify v ++ "," ++ jsonStringifyObj fs

end

mutual

/-- Model of the JS `String()` coercion used by template literals. -/
def jsToString : Json → String
  | Json.null => "null"
  | Json.bool b => if b then "true" else "false"
  | Json.num n => toString n
  | Json.str s => s
  | Json.arr xs => jsToStringArr xs
  | Json.obj _ => "[object Object]"

def jsToStringArr : List Json → String
  | [] => ""
  | [x] => jsToString x
  | x :: xs => jsToString x ++ "," ++ jsToStringArr xs

end

/-- Template-literal coercion of a possibly-`undefined` JS value:
`undefined` interpolates as the string `undefined`. -/
def jsUnd : Option Json → String
  | none => "undefined"
  | some j => jsToString j

/-- JS truthiness of a `Json` value (`NaN` is not representable here). -/
def jsTruthy : Json → Bool
  | Json.null => false
  | Json.bool b => b
  | Json.num n => if n = 0 then false else true
  | Json.str s => if s = "" then false else true
  | Json.arr _ => true
  | Json.obj _ => true

/-- JS truthiness of a possibly-`undefined` value. -/
def jsTruthyOpt : Option Json → Bool
  | none => false
  | some j => jsTruthy j

/-- Model of the JS expression `x || null` as it appears in
`id: request.id || null`. -/
def jsOrNull (x : Option Json) : Option Json :=
  if jsTruthyOpt x then x else some Json.null

/-- Property read `j.k` on a defined JS value: object lookup (objects
built in this development have unique keys), `undefined` otherwise. -/
def Json.getField : Json → String → Option Json
  | Json.obj fs, k => fs.lookup k
  | _, _ => none

/-- Property read `body.k` used by the Express endpoint on the parsed
request body. -/
def jsGet (body : Json) (k : String) : Option Json :=
  body.getField k

/-- Property read `args.k` on a possibly-`undefined`/`null` value:
reading a property of `undefined` or `null` raises a `TypeError`. -/
def jsGetArg (args : Option Json) (k : String) : Except String (Option Json) :=
  match args with
  | none => Except.error ("Cannot read properties of undefined (reading " ++ k ++ ")")
  | some Json.null => Except.error ("Cannot read properties of null (reading " ++ k ++ ")")
  | some j => Except.ok (j.getField k)

/-- Object-rest fields: the fields of `j` except the listed keys, in
order (the `const \x7b k, ...rest \x7d = data` pattern); non-object
values contribute no enumerable fields relevant here. -/
def Json.restFields : Json → List String → List (String × Json)
  | Json.obj fs, ks => fs.filter (fun p => !(ks.contains p.1))
  | _, _ => []

example : jsUnd none = "undefined" := rfl
example : jsOrNull (some (Json.num 0)) = some Json.null := rfl
example : jsOrNull (some (Json.num 3)) = some (Json.num 3) := rfl
example : jsGet (Json.obj [("id", Json.num 2)]) "id" = some (Json.num 2) := rfl

/-- One outbound HTTP request to the external collaborator, as issued by
`makeRequest`: the endpoint path appended to the base URL, the HTTP
method, and `options.body` (set only for mutating methods with truthy
data). -/
structure OutboundRequest where
  endpoint : String
  method : String
  body : Option Json

/-- The external collaborator (the wrapped Hostinger API reached through
`fetch`): an oracle answering every outbound request with either a parsed
JSON body or a failure message (a non-2xx status rendered as
`HTTP status: text`, or a network-level fetch failure). -/
abbrev Collab := OutboundRequest → Except String Json

/-- One MCP content block `\x7btype, text\x7d`. -/
structure ContentBlock where
  type : String
  text : String
deriving DecidableEq

/-- An MCP tool result `\x7bcontent: [...]\x7d`. -/
structure ToolResult where
  content : List ContentBlock
deriving DecidableEq

/-- The single-text-block result shape every handler and the dispatch
catch produce. -/
def textResult (s : String) : ToolResult :=
  { content := [{ type := "text", text := s }] }

/-- `makeRequest(endpoint, method, data)` from the source: builds the
request (body attached only when `data` is truthy and the method is
POST/PUT/PATCH), performs the fetch, and wraps any failure — non-2xx
status or network error alike — into `API request failed: ...`.  The
returned trace records the single request issued. -/
def makeRequest (c : Collab) (endpoint : String) (method : String)
    (data : Option Json) : Except String Json × List OutboundRequest :=
  let body : Option Json :=
    if (match data with | some d => jsTruthy d | none => false)
        && (method = "POST" || method = "PUT" || method = "PATCH") then data else none
  let req : OutboundRequest := { endpoint := endpoint, method := method, body := body }
  (match c req with
   | Except.ok j => Except.ok j
   | Except.error e => Except.error ("API request failed: " ++ e), [req])

/-- The result/trace pair every handler produces. -/
abbrev HandlerOut := Except String ToolResult × List OutboundRequest

/-- Handler `listVPS()`. -/
def listVPS (c : Collab) : HandlerOut :=
  let r := makeRequest c "/v1/vps" "GET" none
  (r.1.map fun result => textResult ("VPS instances: " ++ jsonStringify result), r.2)

/-- Handler `getVPS(vpsId)`. -/
def getVPS (c : Collab) (vpsId : Option Json) : HandlerOut :=
  let r := makeRequest c ("/v1/vps/" ++ jsUnd vpsId) "GET" none
  (r.1.map fun result => textResult ("VPS details: " ++ jsonStringify result), r.2)

/-- Handler `startVPS(vpsId)`. -/
def startVPS (c : Collab) (vpsId : Option Json) : HandlerOut :=
  let r := makeRequest c ("/v1/vps/" ++ jsUnd vpsId ++ "/start") "POST" none
  (r.1.map fun result => textResult ("VPS start result: " ++ jsonStringify result), r.2)

/-- Handler `stopVPS(vpsId)`. -/
def stopVPS (c : Collab) (vpsId : Option Json) : HandlerOut :=
  let r := makeRequest c ("/v1/vps/" ++ jsUnd vpsId ++ "/stop") "POST" none
  (r.1.map fun result => textResult ("VPS stop result: " ++ jsonStringify result), r.2)

/-- Handler `restartVPS(vpsId)`. -/
def restartVPS (c : Collab) (vpsId : Option Json) : HandlerOut :=
  let r := makeRequest c ("/v1/vps/" ++ jsUnd vpsId ++ "/restart") "POST" none
  (r.1.map fun result => textResult ("VPS restart result: " ++ jsonStringify result), r.2)

/-- Handler `getVPSUsage(vpsId, period = "24h")`: the default applies
exactly when the `period` argument is `undefined`. -/
def getVPSUsage (c : Collab) (vpsId : Option Json) (period : Option Json) : HandlerOut :=
  let p : String := match period with | none => "24h" | some v => jsToString v
  let r := makeRequest c ("/v1/vps/" ++ jsUnd vpsId ++ "/usage?period=" ++ p) "GET" none
  (r.1.map fun result => textResult ("VPS usage statistics: " ++ jsonStringify result), r.2)

/-- Handler `listDomains()`. -/
def listDomains (c : Collab) : HandlerOut :=
  let r := makeRequest c "/v1/domains" "GET" none
  (r.1.map fun result => textResult ("Domains: " ++ jsonStringify result), r.2)

/-- Handler `getDomain(domainId)`. -/
def getDomain (c : Collab) (domainId : Option Json) : HandlerOut :=
  let r := makeRequest c ("/v1/domains/" ++ jsUnd domainId) "GET" none
  (r.1.map fun result => textResult ("Domain details: " ++ jsonStringify result), r.2)

/-- Handler `getDomainDNS(domainId)`. -/
def getDomainDNS (c : Collab) (domainId : Option Json) : HandlerOut :=
  let r := makeRequest c ("/v1/domains/" ++ jsUnd domainId ++ "/dns") "GET" none
  (r.1.map fun result => textResult ("DNS records: " ++ jsonStringify result), r.2)

/-- Handler `createDNSRecord(data)`: destructures
`const \x7b domain_id, ...recordData \x7d = data` (raising when `data` is
`undefined` or `null`) and posts the rest object. -/
def createDNSRecord (c : Collab) (data : Option Json) : HandlerOut :=
  match data with
  | none => (Except.error "Cannot destructure property domain_id of data as it is undefined", [])
  | some Json.null => (Except.error "Cannot destructure property domain_id of data as it is null", [])
  | some d =>
    let recordData := Json.obj (d.restFields ["domain_id"])
    let r := makeRequest c ("/v1/domains/" ++ jsUnd (d.getField "domain_id") ++ "/dns") "POST" (some recordData)
    (r.1.map fun result => textResult ("Created DNS record: " ++ jsonStringify result), r.2)

/-- Handler `updateDNSRecord(data)`: destructures
`const \x7b domain_id, record_id, ...recordData \x7d = data` and PUTs the
rest object. -/
def updateDNSRecord (c : Collab) (data : Option Json) : HandlerOut :=
  match data with
  | none => (Except.error "Cannot destructure property domain_id of data as it is undefined", [])
  | some Json.null => (Except.error "Cannot destructure property domain_id of data as it is null", [])
  | some d =>
    let recordData := Json.obj (d.restFields ["domain_id", "record_id"])
    let r := makeRequest c
      ("/v1/domains/" ++ jsUnd (d.getField "domain_id") ++ "/dns/" ++ jsUnd (d.getField "record_id"))
      "PUT" (some recordData)
    (r.1.map fun result => textResult ("Updated DNS record: " ++ jsonStringify result), r.2)

/-- Handler `deleteDNSRecord(domainId, recordId)`: awaits the DELETE and
returns a fixed confirmation text. -/
def deleteDNSRecord (c : Collab) (domainId recordId : Option Json) : HandlerOut :=
  let r := makeRequest c ("/v1/domains/" ++ jsUnd domainId ++ "/dns/" ++ jsUnd recordId) "DELETE" none
  (r.1.map fun _ => textResult ("Successfully deleted DNS record " ++ jsUnd recordId), r.2)

/-- Handler `listHostingAccounts()`. -/
def listHostingAccounts (c : Collab) : HandlerOut :=
  let r := makeRequest c "/v1/hosting" "GET" none
  (r.1.map fun result => textResult ("Hosting accounts: " ++ jsonStringify result), r.2)

/-- Handler `getHostingAccount(accountId)`. -/
def getHostingAccount (c : Collab) (accountId : Option Json) : HandlerOut :=
  let r := makeRequest c ("/v1/hosting/" ++ jsUnd accountId) "GET" none
  (r.1.map fun result => textResult ("Hosting account details: " ++ jsonStringify result), r.2)

/-- Handler `getHostingUsage(accountId)`. -/
def getHostingUsage (c : Collab) (accountId : Option Json) : HandlerOut :=
  let r := makeRequest c ("/v1/hosting/" ++ jsUnd accountId ++ "/usage") "GET" none
  (r.1.map fun result => textResult ("Hosting usage: " ++ jsonStringify result), r.2)

/-- Handler `listEmailAccounts(domainId)`. -/
def listEmailAccounts (c : Collab) (domainId : Option Json) : HandlerOut :=
  let r := makeRequest c ("/v1/domains/" ++ jsUnd domainId ++ "/email") "GET" none
  (r.1.map fun result => textResult ("Email accounts: " ++ jsonStringify result), r.2)

/-- Handler `createEmailAccount(data)`: destructures
`const \x7b domain_id, ...emailData \x7d = data` and posts the rest
object. -/
def createEmailAccount (c : Collab) (data : Option Json) : HandlerOut :=
  match data with
  | none => (Except.error "Cannot destructure property domain_id of data as it is undefined", [])
  | some Json.null => (Except.error "Cannot destructure property domain_id of data as it is null", [])
  | some d =>
    let emailData := Json.obj (d.restFields ["domain_id"])
    let r := makeRequest c ("/v1/domains/" ++ jsUnd (d.getField "domain_id") ++ "/email") "POST" (some emailData)
    (r.1.map fun result => textResult ("Created email account: " ++ jsonStringify result), r.2)

/-- Handler `deleteEmailAccount(domainId, email)`: awaits the DELETE and
returns a fixed confirmation text. -/
def deleteEmailAccount (c : Collab) (domainId email : Option Json) : HandlerOut :=
  let r := makeRequest c ("/v1/domains/" ++ jsUnd domainId ++ "/email/" ++ jsUnd email) "DELETE" none
  (r.1.map fun _ => textResult ("Successfully deleted email account " ++ jsUnd email), r.2)

/-- Handler `listSSLCertificates()` (stdio entry point only). -/
def listSSLCertificates (c : Collab) : HandlerOut :=
  let r := makeRequest c "/v1/ssl" "GET" none
  (r.1.map fun result => textResult ("SSL certificates: " ++ jsonStringify result), r.2)

/-- Handler `getSSLCertificate(certificateId)` (stdio entry point only). -/
def getSSLCertificate (c : Collab) (certificateId : Option Json) : HandlerOut :=
  let r := makeRequest c ("/v1/ssl/" ++ jsUnd certificateId) "GET" none
  (r.1.map fun result => textResult ("SSL certificate details: " ++ jsonStringify result), r.2)

/-- Handler `createSSLCertificate(data)` (stdio entry point only):
forwards the whole arguments object as the POST body. -/
def createSSLCertificate (c : Collab) (data : Option Json) : HandlerOut :=
  let r := makeRequest c "/v1/ssl" "POST" data
  (r.1.map fun result => textResult ("Created SSL certificate: " ++ jsonStringify result), r.2)

/-- Handler `listBackups(resourceId, resourceType)` (stdio entry point
only). -/
def listBackups (c : Collab) (resourceId resourceType : Option Json) : HandlerOut :=
  let r := makeRequest c ("/v1/" ++ jsUnd resourceType ++ "/" ++ jsUnd resourceId ++ "/backups") "GET" none
  (r.1.map fun result => textResult ("Backups: " ++ jsonStringify result), r.2)

/-- Handler `createBackup(data)` (stdio entry point only): destructures
`const \x7b resource_id, resource_type, ...backupData \x7d = data` and
posts the rest object. -/
def createBackup (c : Collab) (data : Option Json) : HandlerOut :=
  match data with
  | none => (Except.error "Cannot destructure property resource_id of data as it is undefined", [])
  | some Json.null => (Except.error "Cannot destructure property resource_id of data as it is null", [])
  | some d =>
    let backupData := Json.obj (d.restFields ["resource_id", "resource_type"])
    let r := makeRequest c
      ("/v1/" ++ jsUnd (d.getField "resource_type") ++ "/" ++ jsUnd (d.getField "resource_id") ++ "/backups")
      "POST" (some backupData)
    (r.1.map fun result => textResult ("Created backup: " ++ jsonStringify result), r.2)

/-- Handler `restoreBackup(backupId, resourceId)` (stdio entry point
only): posts `\x7bresource_id: resourceId\x7d`; an `undefined` property
value is omitted by `JSON.stringify`. -/
def restoreBackup (c : Collab) (backupId resourceId : Option Json) : HandlerOut :=
  let payload := Json.obj (match resourceId with | none => [] | some v => [("resource_id", v)])
  let r := makeRequest c ("/v1/backups/" ++ jsUnd backupId ++ "/restore") "POST" (some payload)
  (r.1.map fun result => textResult ("Restore backup result: " ++ jsonStringify result), r.2)

/-- Handler `getAccountInfo()`. -/
def getAccountInfo (c : Collab) : HandlerOut :=
  let r := makeRequest c "/v1/account" "GET" none
  (r.1.map fun result => textResult ("Account information: " ++ jsonStringify result), r.2)

/-- Handler `getInvoices(params = \x7b\x7d)` (stdio entry point only):
the parameter default applies when the arguments object is `undefined`;
`limit`/`offset` destructuring defaults apply when the respective
property is `undefined`. -/
def getInvoices (c : Collab) (params : Option Json) : HandlerOut :=
  match params with
  | some Json.null => (Except.error "Cannot destructure property limit of params as it is null", [])
  | _ =>
    let p : Json := params.getD (Json.obj [])
    let limit : Json := (p.getField "limit").getD (Json.num 10)
    let offset : Json := (p.getField "offset").getD (Json.num 0)
    let r := makeRequest c
      ("/v1/invoices?limit=" ++ jsToString limit ++ "&offset=" ++ jsToString offset) "GET" none
    (r.1.map fun result => textResult ("Invoices: " ++ jsonStringify result), r.2)

/-- Evaluation of `args.k` followed by the handler call, mirroring that
the argument expression is evaluated before the handler body runs: a
`TypeError` from reading a property of `undefined`/`null` arguments
short-circuits with no outbound request. -/
def withArg (args : Option Json) (k : String)
    (f : Option Json → HandlerOut) : HandlerOut :=
  match jsGetArg args k with
  | Except.error e => (Except.error e, [])
  | Except.ok v => f v

/-- Evaluation of `args.k₁` and `args.k₂` (left to right) followed by the
handler call. -/
def withArg2 (args : Option Json) (k₁ k₂ : String)
    (f : Option Json → Option Json → HandlerOut) : HandlerOut :=
  match jsGetArg args k₁ with
  | Except.error e => (Except.error e, [])
  | Except.ok v₁ =>
    match jsGetArg args k₂ with
    | Except.error e => (Except.error e, [])
    | Except.ok v₂ => f v₁ v₂

/-- The `switch (name)` body of the stdio entry point's
`CallToolRequestSchema` handler (`src/index.js`, 26 cases): resolves the
tool name and runs the bound handler; the default case raises
`Unknown tool: name`.  `name` is a string here because the MCP SDK has
already validated the request against `CallToolRequestSchema`. -/
def dispatchIndex (c : Collab) (name : String) (args : Option Json) : HandlerOut :=
  match name with
  | "list_vps" => listVPS c
  | "get_vps" => withArg args "vps_id" (getVPS c)
  | "start_vps" => withArg args "vps_id" (startVPS c)
  | "stop_vps" => withArg args "vps_id" (stopVPS c)
  | "restart_vps" => withArg args "vps_id" (restartVPS c)
  | "get_vps_usage" => withArg2 args "vps_id" "period" (getVPSUsage c)
  | "list_domains" => listDomains c
  | "get_domain" => withArg args "domain_id" (getDomain c)
  | "get_domain_dns" => withArg args "domain_id" (getDomainDNS c)
  | "create_dns_record" => createDNSRecord c args
  | "update_dns_record" => updateDNSRecord c args
  | "delete_dns_record" => withArg2 args "domain_id" "record_id" (deleteDNSRecord c)
  | "list_hosting_accounts" => listHostingAccounts c
  | "get_hosting_account" => withArg args "account_id" (getHostingAccount c)
  | "get_hosting_usage" => withArg args "account_id" (getHostingUsage c)
  | "list_email_accounts" => withArg args "domain_id" (listEmailAccounts c)
  | "create_email_account" => createEmailAccount c args
  | "delete_email_account" => withArg2 args "domain_id" "email" (deleteEmailAccount c)
  | "list_ssl_certificates" => listSSLCertificates c
  | "get_ssl_certificate" => withArg args "certificate_id" (getSSLCertificate c)
  | "create_ssl_certificate" => createSSLCertificate c args
  | "list_backups" => withArg2 args "resource_id" "resource_type" (listBackups c)
  | "create_backup" => createBackup c args
  | "restore_backup" => withArg2 args "backup_id" "resource_id" (restoreBackup c)
  | "get_account_info" => getAccountInfo c
  | "get_invoices" => getInvoices c args
  | _ => (Except.error ("Unknown tool: " ++ name), [])

/-- The `try/catch` around the dispatch switch: a raised failure of any
kind becomes a successful single-text-block result narrating
`Error: message`; a success passes through unchanged.  The trace of
already-issued outbound requests is unaffected. -/
def runDispatch (d : HandlerOut) : ToolResult × List OutboundRequest :=
  (match d.1 with
   | Except.ok r => r
   | Except.error e => textResult ("Error: " ++ e), d.2)

/-- The stdio entry point's `CallToolRequestSchema` handler
(`src/index.js`): dispatch wrapped in the uniform catch. -/
def callToolIndex (c : Collab) (name : String) (args : Option Json) :
    ToolResult × List OutboundRequest :=
  runDispatch (dispatchIndex c name args)

/-- The string-keyed cases of the Express entry point switch
(19 cases — no SSL, backup, or invoice tools); the default raises
`Unknown tool: name`. -/
def dispatchExpressStr (c : Collab) (s : String) (args : Option Json) : HandlerOut :=
  match s with
  | "list_vps" => listVPS c
  | "get_vps" => withArg args "vps_id" (getVPS c)
  | "start_vps" => withArg args "vps_id" (startVPS c)
  | "stop_vps" => withArg args "vps_id" (stopVPS c)
  | "restart_vps" => withArg args "vps_id" (restartVPS c)
  | "get_vps_usage" => withArg2 args "vps_id" "period" (getVPSUsage c)
  | "list_domains" => listDomains c
  | "get_domain" => withArg args "domain_id" (getDomain c)
  | "get_domain_dns" => withArg args "domain_id" (getDomainDNS c)
  | "create_dns_record" => createDNSRecord c args
  | "update_dns_record" => updateDNSRecord c args
  | "delete_dns_record" => withArg2 args "domain_id" "record_id" (deleteDNSRecord c)
  | "list_hosting_accounts" => listHostingAccounts c
  | "get_hosting_account" => withArg args "account_id" (getHostingAccount c)
  | "get_hosting_usage" => withArg args "account_id" (getHostingUsage c)
  | "list_email_accounts" => withArg args "domain_id" (listEmailAccounts c)
  | "create_email_account" => createEmailAccount c args
  | "delete_email_account" => withArg2 args "domain_id" "email" (deleteEmailAccount c)
  | "get_account_info" => getAccountInfo c
  | _ => (Except.error ("Unknown tool: " ++ s), [])

/-- The `switch (name)` body of the Express entry point
`handleCallTool`: the JS strict-equality case labels only ever match a
string name, so a non-string name falls straight to the default, which
raises `Unknown tool:` followed by the JS string coercion of the name;
for a string name the default raises the same text with the string
itself. -/
def dispatchExpress (c : Collab) (name args : Option Json) : HandlerOut :=
  match name with
  | some (Json.str s) => dispatchExpressStr c s args
  | _ => (Except.error ("Unknown tool: " ++ jsUnd name), [])

/-- The Express entry point's `handleCallTool(params)`: the
`const \x7b name, arguments: args \x7d = params` destructuring happens
*outside* the try/catch, so it raises out of the function when `params`
is `undefined` or `null`; after it succeeds the function always returns
normally (the switch sits inside the catch). -/
def handleCallTool (c : Collab) (params : Option Json) : HandlerOut :=
  match params with
  | none => (Except.error "Cannot destructure property name of params as it is undefined", [])
  | some Json.null => (Except.error "Cannot destructure property name of params as it is null", [])
  | some p =>
    let r := runDispatch (dispatchExpress c (p.getField "name") (p.getField "arguments"))
    (Except.ok r.1, r.2)

/-- One property of a tool's input schema: its key, declared JSON type,
human description, and optional enum of allowed string values. -/
structure SchemaProp where
  key : String
  type : String
  description : String
  enumVals : Option (List String)
deriving DecidableEq

/-- A tool's `inputSchema` object: type, properties, and the list of
required property keys (empty when the source omits `required`). -/
structure InputSchema where
  type : String
  properties : List SchemaProp
  required : List String
deriving DecidableEq

/-- One tool descriptor of the catalog. -/
structure ToolDescriptor where
  name : String
  description : String
  inputSchema : InputSchema
deriving DecidableEq

/-- The 26-tool catalog returned by the stdio entry point's
`ListToolsRequestSchema` handler (`src/index.js`). -/
def indexCatalog : List ToolDescriptor := [
  { name := "list_vps", description := "List all VPS instances",
    inputSchema := { type := "object", properties := [], required := [] } },
  { name := "get_vps", description := "Get details of a specific VPS instance",
    inputSchema :=
      { type := "object",
        properties := [{ key := "vps_id", type := "string", description := "VPS ID", enumVals := none }],
        required := ["vps_id"] } },
  { name := "start_vps", description := "Start a VPS instance",
    inputSchema :=
      { type := "object",
        properties := [{ key := "vps_id", type := "string", description := "VPS ID", enumVals := none }],
        required := ["vps_id"] } },
  { name := "stop_vps", description := "Stop a VPS instance",
    inputSchema :=
      { type := "object",
        properties := [{ key := "vps_id", type := "string", description := "VPS ID", enumVals := none }],
        required := ["vps_id"] } },
  { name := "restart_vps", description := "Restart a VPS instance",
    inputSchema :=
      { type := "object",
        properties := [{ key := "vps_id", type := "string", description := "VPS ID", enumVals := none }],
        required := ["vps_id"] } },
  { name := "get_vps_usage", description := "Get resource usage statistics for a VPS",
    inputSchema :=
      { type := "object",
        properties := [
          { key := "vps_id", type := "string", description := "VPS ID", enumVals := none },
          { key := "period", type := "string", description := "Time period for statistics",
            enumVals := some ["1h", "24h", "7d", "30d"] }],
        required := ["vps_id"] } },
  { name := "list_domains", description := "List all domains",
    inputSchema := { type := "object", properties := [], required := [] } },
  { name := "get_domain", description := "Get details of a specific domain",
    inputSchema :=
      { type := "object",
        properties := [{ key := "domain_id", type := "string", description := "Domain ID", enumVals := none }],
        required := ["domain_id"] } },
  { name := "get_domain_dns", description := "Get DNS records for a domain",
    inputSchema :=
      { type := "object",
        properties := [{ key := "domain_id", type := "string", description := "Domain ID", enumVals := none }],
        required := ["domain_id"] } },
  { name := "create_dns_record", description := "Create a new DNS record",
    inputSchema :=
      { type := "object",
        properties := [
          { key := "domain_id", type := "string", description := "Domain ID", enumVals := none },
          { key := "type", type := "string", description := "DNS record type",
            enumVals := some ["A", "AAAA", "CNAME", "MX", "TXT", "NS", "SRV"] },
          { key := "name", type := "string", description := "Record name", enumVals := none },
          { key := "content", type := "string", description := "Record content/value", enumVals := none },
          { key := "ttl", type := "number", description := "Time to live (seconds)", enumVals := none },
          { key := "priority", type := "number", description := "Priority (for MX records)", enumVals := none }],
        required := ["domain_id", "type", "name", "content"] } },
  { name := "update_dns_record", description := "Update an existing DNS record",
    inputSchema :=
      { type := "object",
        properties := [
          { key := "domain_id", type := "string", description := "Domain ID", enumVals := none },
          { key := "record_id", type := "string", description := "DNS record ID", enumVals := none },
          { key := "type", type := "string", description := "DNS record type",
            enumVals := some ["A", "AAAA", "CNAME", "MX", "TXT", "NS", "SRV"] },
          { key := "name", type := "string", description := "Record name", enumVals := none },
          { key := "content", type := "string", description := "Record content/value", enumVals := none },
          { key := "ttl", type := "number", description := "Time to live (seconds)", enumVals := none },
          { key := "priority", type := "number", description := "Priority (for MX records)", enumVals := none }],
        required := ["domain_id", "record_id"] } },
  { name := "delete_dns_record", description := "Delete a DNS record",
    inputSchema :=
      { type := "object",
        properties := [
          { key := "domain_id", type := "string", description := "Domain ID", enumVals := none },
          { key := "record_id", type := "string", description := "DNS record ID", enumVals := none }],
        required := ["domain_id", "record_id"] } },
  { name := "list_hosting_accounts", description := "List all hosting accounts",
    inputSchema := { type := "object", properties := [], required := [] } },
  { name := "get_hosting_account", description := "Get details of a specific hosting account",
    inputSchema :=
      { type := "object",
        properties := [{ key := "account_id", type := "string", description := "Hosting account ID", enumVals := none }],
        required := ["account_id"] } },
  { name := "get_hosting_usage", description := "Get resource usage for a hosting account",
    inputSchema :=
      { type := "object",
        properties := [{ key := "account_id", type := "string", description := "Hosting account ID", enumVals := none }],
        required := ["account_id"] } },
  { name := "list_email_accounts", description := "List email accounts for a domain",
    inputSchema :=
      { type := "object",
        properties := [{ key := "domain_id", type := "string", description := "Domain ID", enumVals := none }],
        required := ["domain_id"] } },
  { name := "create_email_account", description := "Create a new email account",
    inputSchema :=
      { type := "object",
        properties := [
          { key := "domain_id", type := "string", description := "Domain ID", enumVals := none },
          { key := "email", type := "string", description := "Email address", enumVals := none },
          { key := "password", type := "string", description := "Password", enumVals := none },
          { key := "quota", type := "number", description := "Quota in MB", enumVals := none }],
        required := ["domain_id", "email", "password"] } },
  { name := "delete_email_account", description := "Delete an email account",
    inputSchema :=
      { type := "object",
        properties := [
          { key := "domain_id", type := "string", description := "Domain ID", enumVals := none },
          { key := "email", type := "string", description := "Email address", enumVals := none }],
        required := ["domain_id", "email"] } },
  { name := "list_ssl_certificates", description := "List SSL certificates",
    inputSchema := { type := "object", properties := [], required := [] } },
  { name := "get_ssl_certificate", description := "Get details of an SSL certificate",
    inputSchema :=
      { type := "object",
        properties := [{ key := "certificate_id", type := "string", description := "SSL certificate ID", enumVals := none }],
        required := ["certificate_id"] } },
  { name := "create_ssl_certificate", description := "Create/order a new SSL certificate",
    inputSchema :=
      { type := "object",
        properties := [
          { key := "domain_id", type := "string", description := "Domain ID", enumVals := none },
          { key := "type", type := "string", description := "Certificate type",
            enumVals := some ["lets_encrypt", "paid"] }],
        required := ["domain_id", "type"] } },
  { name := "list_backups", description := "List backups for a hosting account or VPS",
    inputSchema :=
      { type := "object",
        properties := [
          { key := "resource_id", type := "string", description := "Resource ID (hosting account or VPS)", enumVals := none },
          { key := "resource_type", type := "string", description := "Resource type",
            enumVals := some ["hosting", "vps"] }],
        required := ["resource_id", "resource_type"] } },
  { name := "create_backup", description := "Create a manual backup",
    inputSchema :=
      { type := "object",
        properties := [
          { key := "resource_id", type := "string", description := "Resource ID (hosting account or VPS)", enumVals := none },
          { key := "resource_type", type := "string", description := "Resource type",
            enumVals := some ["hosting", "vps"] },
          { key := "description", type := "string", description := "Backup description", enumVals := none }],
        required := ["resource_id", "resource_type"] } },
  { name := "restore_backup", description := "Restore from a backup",
    inputSchema :=
      { type := "object",
        properties := [
          { key := "backup_id", type := "string", description := "Backup ID", enumVals := none },
          { key := "resource_id", type := "string", description := "Resource ID to restore to", enumVals := none }],
        required := ["backup_id", "resource_id"] } },
  { name := "get_account_info", description := "Get account information and balance",
    inputSchema := { type := "object", properties := [], required := [] } },
  { name := "get_invoices", description := "List invoices",
    inputSchema :=
      { type := "object",
        properties := [
          { key := "limit", type := "number", description := "Number of invoices to return", enumVals := none },
          { key := "offset", type := "number", description := "Offset for pagination", enumVals := none }],
        required := [] } }]

/-- The 19-tool catalog returned by the Express entry point's
`handleListTools` (transcribed independently from that file; it has no
SSL, backup, or invoice tools). -/
def expressCatalog : List ToolDescriptor := [
  { name := "list_vps", description := "List all VPS instances",
    inputSchema := { type := "object", properties := [], required := [] } },
  { name := "get_vps", description := "Get details of a specific VPS instance",
    inputSchema :=
      { type := "object",
        properties := [{ key := "vps_id", type := "string", description := "VPS ID", enumVals := none }],
        required := ["vps_id"] } },
  { name := "start_vps", description := "Start a VPS instance",
    inputSchema :=
      { type := "object",
        properties := [{ key := "vps_id", type := "string", description := "VPS ID", enumVals := none }],
        required := ["vps_id"] } },
  { name := "stop_vps", description := "Stop a VPS instance",
    inputSchema :=
      { type := "object",
        properties := [{ key := "vps_id", type := "string", description := "VPS ID", enumVals := none }],
        required := ["vps_id"] } },
  { name := "restart_vps", description := "Restart a VPS instance",
    inputSchema :=
      { type := "object",
        properties := [{ key := "vps_id", type := "string", description := "VPS ID", enumVals := none }],
        required := ["vps_id"] } },
  { name := "get_vps_usage", description := "Get resource usage statistics for a VPS",
    inputSchema :=
      { type := "object",
        properties := [
          { key := "vps_id", type := "string", description := "VPS ID", enumVals := none },
          { key := "period", type := "string", description := "Time period for statistics",
            enumVals := some ["1h", "24h", "7d", "30d"] }],
        required := ["vps_id"] } },
  { name := "list_domains", description := "List all domains",
    inputSchema := { type := "object", properties := [], required := [] } },
  { name := "get_domain", description := "Get details of a specific domain",
    inputSchema :=
      { type := "object",
        properties := [{ key := "domain_id", type := "string", description := "Domain ID", enumVals := none }],
        required := ["domain_id"] } },
  { name := "get_domain_dns", description := "Get DNS records for a domain",
    inputSchema :=
      { type := "object",
        properties := [{ key := "domain_id", type := "string", description := "Domain ID", enumVals := none }],
        required := ["domain_id"] } },
  { name := "create_dns_record", description := "Create a new DNS record",
    inputSchema :=
      { type := "object",
        properties := [
          { key := "domain_id", type := "string", description := "Domain ID", enumVals := none },
          { key := "type", type := "string", description := "DNS record type",
            enumVals := some ["A", "AAAA", "CNAME", "MX", "TXT", "NS", "SRV"] },
          { key := "name", type := "string", description := "Record name", enumVals := none },
          { key := "content", type := "string", description := "Record content/value", enumVals := none },
          { key := "ttl", type := "number", description := "Time to live (seconds)", enumVals := none },
          { key := "priority", type := "number", description := "Priority (for MX records)", enumVals := none }],
        required := ["domain_id", "type", "name", "content"] } },
  { name := "update_dns_record", description := "Update an existing DNS record",
    inputSchema :=
      { type := "object",
        properties := [
          { key := "domain_id", type := "string", description := "Domain ID", enumVals := none },
          { key := "record_id", type := "string", description := "DNS record ID", enumVals := none },
          { key := "type", type := "string", description := "DNS record type",
            enumVals := some ["A", "AAAA", "CNAME", "MX", "TXT", "NS", "SRV"] },
          { key := "name", type := "string", description := "Record name", enumVals := none },
          { key := "content", type := "string", description := "Record content/value", enumVals := none },
          { key := "ttl", type := "number", description := "Time to live (seconds)", enumVals := none },
          { key := "priority", type := "number", description := "Priority (for MX records)", enumVals := none }],
        required := ["domain_id", "record_id"] } },
  { name := "delete_dns_record", description := "Delete a DNS record",
    inputSchema :=
      { type := "object",
        properties := [
          { key := "domain_id", type := "string", description := "Domain ID", enumVals := none },
          { key := "record_id", type := "string", description := "DNS record ID", enumVals := none }],
        required := ["domain_id", "record_id"] } },
  { name := "list_hosting_accounts", description := "List all hosting accounts",
    inputSchema := { type := "object", properties := [], required := [] } },
  { name := "get_hosting_account", description := "Get details of a specific hosting account",
    inputSchema :=
      { type := "object",
        properties := [{ key := "account_id", type := "string", description := "Hosting account ID", enumVals := none }],
        required := ["account_id"] } },
  { name := "get_hosting_usage", description := "Get resource usage for a hosting account",
    inputSchema :=
      { type := "object",
        properties := [{ key := "account_id", type := "string", description := "Hosting account ID", enumVals := none }],
        required := ["account_id"] } },
  { name := "list_email_accounts", description := "List email accounts for a domain",
    inputSchema :=
      { type := "object",
        properties := [{ key := "domain_id", type := "string", description := "Domain ID", enumVals := none }],
        required := ["domain_id"] } },
  { name := "create_email_account", description := "Create a new email account",
    inputSchema :=
      { type := "object",
        properties := [
          { key := "domain_id", type := "string", description := "Domain ID", enumVals := none },
          { key := "email", type := "string", description := "Email address", enumVals := none },
          { key := "password", type := "string", description := "Password", enumVals := none },
          { key := "quota", type := "number", description := "Quota in MB", enumVals := none }],
        required := ["domain_id", "email", "password"] } },
  { name := "delete_email_account", description := "Delete an email account",
    inputSchema :=
      { type := "object",
        properties := [
          { key := "domain_id", type := "string", description := "Domain ID", enumVals := none },
          { key := "email", type := "string", description := "Email address", enumVals := none }],
        required := ["domain_id", "email"] } },
  { name := "get_account_info", description := "Get account information and balance",
    inputSchema := { type := "object", properties := [], required := [] } }]

/-- The `\x7btools: [...]\x7d` object both list handlers return. -/
structure ListToolsResult where
  tools : List ToolDescriptor
deriving DecidableEq

/-- The stdio entry point's `ListToolsRequestSchema` handler: a nullary
async function returning the catalog object. -/
def listToolsIndex (_ : Unit) : ListToolsResult :=
  { tools := indexCatalog }

/-- The Express entry point's `handleListTools()`. -/
def handleListTools (_ : Unit) : ListToolsResult :=
  { tools := expressCatalog }

/-- The payload placed in a successful JSON-RPC `result` by the `/mcp`
endpoint: either a tools listing or a tool-call result. -/
inductive McpResult where
  | tools (lt : ListToolsResult)
  | call (r : ToolResult)

/-- A JSON-RPC response as emitted by the `/mcp` endpoint: exactly one of
`result`/`error`; `id` is `none` when the emitted object omits the field
(serializing a JS `undefined` property). -/
inductive RpcOut where
  | result (payload : McpResult) (id : Option Json)
  | rpcError (code : Int) (message : String) (data : Option String) (id : Option Json)

/-- The `id` field of an emitted response. -/
def RpcOut.respId : RpcOut → Option Json
  | RpcOut.result _ i => i
  | RpcOut.rpcError _ _ _ i => i

/-- The `error.code` field of an emitted response, when error-shaped. -/
def RpcOut.errCode : RpcOut → Option Int
  | RpcOut.result _ _ => none
  | RpcOut.rpcError code _ _ _ => some code

/-- Whether the emitted envelope is result-shaped. -/
def RpcOut.isResult : RpcOut → Bool
  | RpcOut.result _ _ => true
  | RpcOut.rpcError _ _ _ _ => false

/-- An HTTP response of the `/mcp` endpoint: status code and JSON-RPC
body. -/
structure HttpResponse where
  status : Nat
  body : RpcOut

/-- The envelope validation `!request.jsonrpc || request.jsonrpc !== "2.0"`,
negated: it passes exactly when the field is the string literal 2.0. -/
def isJsonRpc20 : Option Json → Bool
  | some (Json.str s) => s = "2.0"
  | _ => false

/-- Strict comparison `request.method === s` of a JSON field against a
string literal. -/
def isMethod (m : Option Json) (s : String) : Bool :=
  match m with
  | some (Json.str t) => t = s
  | _ => false

/-- The `POST /mcp` route of `setupExpressServer`: validates the JSON-RPC
envelope, routes `tools/list` and `tools/call`, rejects other methods,
and converts any exception escaping dispatch (only the `params`
destructuring can raise) into an InternalError response.  The
InvalidRequest and InternalError branches build their `id` as
`request.id || null`, the other branches echo `request.id` unchanged. -/
def postMcp (c : Collab) (body : Json) : HttpResponse × List OutboundRequest :=
  if isJsonRpc20 (jsGet body "jsonrpc") = false then
    ({ status := 400,
       body := RpcOut.rpcError (-32600) "Invalid Request" none (jsOrNull (jsGet body "id")) }, [])
  else if isMethod (jsGet body "method") "tools/list" then
    ({ status := 200,
       body := RpcOut.result (McpResult.tools (handleListTools ())) (jsGet body "id") }, [])
  else if isMethod (jsGet body "method") "tools/call" then
    match handleCallTool c (jsGet body "params") with
    | (Except.ok r, t) =>
      ({ status := 200, body := RpcOut.result (McpResult.call r) (jsGet body "id") }, t)
    | (Except.error e, t) =>
      ({ status := 500,
         body := RpcOut.rpcError (-32603) "Internal error" (some e) (jsOrNull (jsGet body "id")) }, t)
  else
    ({ status := 400,
       body := RpcOut.rpcError (-32601) "Method not found" none (jsGet body "id") }, [])

/-- The names of the stdio catalog, in order. -/
theorem indexCatalogNames :
    indexCatalog.map ToolDescriptor.name = ["list_vps", "get_vps", "start_vps", "stop_vps",
      "restart_vps", "get_vps_usage", "list_domains", "get_domain", "get_domain_dns",
      "create_dns_record", "update_dns_record", "delete_dns_record", "list_hosting_accounts",
      "get_hosting_account", "get_hosting_usage", "list_email_accounts", "create_email_account",
      "delete_email_account", "list_ssl_certificates", "get_ssl_certificate",
      "create_ssl_certificate", "list_backups", "create_backup", "restore_backup",
      "get_account_info", "get_invoices"] := rfl

/-- Associativity of string append, specialised to the narration prefix. -/
theorem errorPrefixAppend (s : String) :
    "Error: " ++ ("Unknown tool: " ++ s) = "Error: Unknown tool: " ++ s := by
  rw [← String.append_assoc]
  congr 1

/-- C2: for every tool name n not present in the catalog, callTool with
empty arguments returns a successful, result-shaped ToolResult whose
single text block is the narration `Error: Unknown tool: n` — and no
outbound request is issued, so an unknown name is never a silent no-op. -/
theorem callTool_unknown_tool (c : Collab) (n : String)
    (hn : n ∉ indexCatalog.map ToolDescriptor.name) :
    callToolIndex c n (some (Json.obj [])) =
      ({ content := [{ type := "text", text := "Error: Unknown tool: " ++ n }] }, []) := by
  rw [indexCatalogNames] at hn
  have hd : dispatchIndex c n (some (Json.obj [])) =
      (Except.error ("Unknown tool: " ++ n), []) := by
    unfold dispatchIndex
    split
    all_goals try rfl
    all_goals simp at hn
  unfold callToolIndex runDispatch
  rw [hd]
  simp [textResult, errorPrefixAppend]

/-- Witness for C2 at the concrete unknown name frobnicate. -/
theorem callTool_unknown_tool_witness :
    ("frobnicate" ∉ indexCatalog.map ToolDescriptor.name) ∧
    callToolIndex (fun _ => Except.ok Json.null) "frobnicate" (some (Json.obj [])) =
      ({ content := [{ type := "text", text := "Error: Unknown tool: frobnicate" }] }, []) :=
  ⟨by decide, callTool_unknown_tool _ _ (by decide)⟩

/-- C1: for every tool name present in the catalog and every handler
failure of any kind (the argument read raising, the destructuring
raising, or the collaborator failing), callTool does not propagate the
error: it returns a successful ToolResult whose single content block is
the text `Error: message`; and over the HTTP transport a tools/call
whose params destructure successfully always yields a result-shaped,
status-200 envelope, never an error-shaped one. -/
theorem callTool_failure_uniform :
    (∀ (c : Collab) (nm : String) (args : Option Json) (msg : String),
       nm ∈ indexCatalog.map ToolDescriptor.name →
       (dispatchIndex c nm args).1 = Except.error msg →
       (callToolIndex c nm args).1 =
         { content := [{ type := "text", text := "Error: " ++ msg }] }) ∧
    (∀ (c : Collab) (body pobj : Json),
       jsGet body "jsonrpc" = some (Json.str "2.0") →
       jsGet body "method" = some (Json.str "tools/call") →
       jsGet body "params" = some pobj → pobj ≠ Json.null →
       (postMcp c body).1.status = 200 ∧ (postMcp c body).1.body.isResult = true) := by
  constructor
  · intro c nm args msg _ hfail
    unfold callToolIndex runDispatch
    rw [hfail]
    rfl
  · intro c body pobj h20 hm hp hnn
    unfold postMcp
    rw [h20, hm, hp]
    unfold handleCallTool
    cases pobj
    case null => exact absurd rfl hnn
    all_goals exact ⟨rfl, rfl⟩

/-- Witness for C1: a downstream HTTP failure on list_vps is narrated as
result data, and a tools/call POST with failing handler still gets a
200 result envelope. -/
theorem callTool_failure_uniform_witness :
    ("list_vps" ∈ indexCatalog.map ToolDescriptor.name) ∧
    ((callToolIndex (fun _ => Except.error "HTTP 404: not found") "list_vps" none).1 =
      { content := [{ type := "text", text := "Error: API request failed: HTTP 404: not found" }] }) ∧
    ((postMcp (fun _ => Except.error "HTTP 404: not found")
        (Json.obj [("jsonrpc", Json.str "2.0"), ("method", Json.str "tools/call"),
          ("params", Json.obj [("name", Json.str "get_vps")])])).1.status = 200) := by
  refine ⟨by decide, callTool_failure_uniform.1 _ _ _ _ (by decide) (by rfl), ?_⟩
  exact (callTool_failure_uniform.2 (fun _ => Except.error "HTTP 404: not found")
    (Json.obj [("jsonrpc", Json.str "2.0"), ("method", Json.str "tools/call"),
      ("params", Json.obj [("name", Json.str "get_vps")])])
    (Json.obj [("name", Json.str "get_vps")]) rfl rfl rfl (by simp)).1

/-- C3 counterexample: calling get_vps (whose schema requires vps_id)
with an empty arguments object does NOT raise before the external call —
an outbound GET to /v1/vps/undefined is issued. -/
theorem getVPS_missing_required_arg_calls_collaborator :
    (callToolIndex (fun _ => Except.ok Json.null) "get_vps" (some (Json.obj []))).2 =
      [{ endpoint := "/v1/vps/undefined", method := "GET", body := none }] ∧
    [({ endpoint := "/v1/vps/undefined", method := "GET", body := none } : OutboundRequest)] ≠
      ([] : List OutboundRequest) :=
  ⟨rfl, by simp⟩

/-- C3 amended: with the required key merely missing from a present
arguments object the handler does not raise — the undefined value is
interpolated as the literal string undefined into the collaborator path
and the outbound request is issued regardless of the collaborator; a
raise before any external call happens only when the arguments object
itself is absent, and then no outbound request is made. -/
theorem getVPS_missing_arg_behavior :
    (∀ c : Collab, (callToolIndex c "get_vps" (some (Json.obj []))).2 =
      [{ endpoint := "/v1/vps/undefined", method := "GET", body := none }]) ∧
    (∀ c : Collab, callToolIndex c "get_vps" none =
      ({ content := [{ type := "text", text := "Error: Cannot read properties of undefined (reading vps_id)" }] }, [])) :=
  ⟨fun _ => rfl, fun _ => rfl⟩

/-- C5 counterexample: the two entry points do not enumerate the same
tool-descriptor sequence — the stdio catalog has 26 descriptors, the
HTTP/SSE catalog 19. -/
theorem catalogs_not_identical :
    indexCatalog ≠ expressCatalog ∧
    indexCatalog.length = 26 ∧ expressCatalog.length = 19 := by
  refine ⟨fun h => ?_, rfl, rfl⟩
  have hl := congrArg List.length h
  rw [show indexCatalog.length = 26 from rfl,
      show expressCatalog.length = 19 from rfl] at hl
  exact absurd hl (by decide)

/-- C5 amended: the catalogs agree element-for-element (names, order,
descriptions, schemas) on the first 18 descriptors and on
get_account_info, but the HTTP/SSE entry point omits the three SSL
tools, the three backup tools, and get_invoices, so the listings are not
identical across transports. -/
theorem catalogs_overlap :
    expressCatalog = indexCatalog.take 18 ++ (indexCatalog.drop 24).take 1 ∧
    (indexCatalog.map ToolDescriptor.name).filter
        (fun n => !((expressCatalog.map ToolDescriptor.name).contains n)) =
      ["list_ssl_certificates", "get_ssl_certificate", "create_ssl_certificate",
       "list_backups", "create_backup", "restore_backup", "get_invoices"] :=
  ⟨rfl, rfl⟩

/-- The envelope check fails on everything except the string literal
2.0. -/
theorem isJsonRpc20_eq_false (x : Option Json) (h : x ≠ some (Json.str "2.0")) :
    isJsonRpc20 x = false := by
  match x with
  | none => rfl
  | some Json.null => rfl
  | some (Json.bool b) => rfl
  | some (Json.num n) => rfl
  | some (Json.arr xs) => rfl
  | some (Json.obj fs) => rfl
  | some (Json.str s) =>
    have hs : s ≠ "2.0" := by intro he; exact h (by rw [he])
    simp [isJsonRpc20, hs]

/-- The strict method comparison fails on everything except the matching
string literal. -/
theorem isMethod_eq_false (m : Option Json) (s : String) (h : m ≠ some (Json.str s)) :
    isMethod m s = false := by
  match m with
  | none => rfl
  | some Json.null => rfl
  | some (Json.bool b) => rfl
  | some (Json.num n) => rfl
  | some (Json.arr xs) => rfl
  | some (Json.obj fs) => rfl
  | some (Json.str t) =>
    have hs : t ≠ s := by intro he; exact h (by rw [he])
    simp [isMethod, hs]

/-- C6: a POST /mcp body whose jsonrpc field is missing or is not the
literal string 2.0 gets HTTP 400 with JSON-RPC error code -32600, and no
handler is dispatched (no outbound request). -/
theorem postMcp_invalid_jsonrpc (c : Collab) (body : Json)
    (h : jsGet body "jsonrpc" ≠ some (Json.str "2.0")) :
    postMcp c body =
      ({ status := 400,
         body := RpcOut.rpcError (-32600) "Invalid Request" none (jsOrNull (jsGet body "id")) },
       []) := by
  unfold postMcp
  rw [isJsonRpc20_eq_false _ h]
  rfl

/-- Witness for C6 at the spec example jsonrpc 1.0. -/
theorem postMcp_invalid_jsonrpc_witness :
    (jsGet (Json.obj [("jsonrpc", Json.str "1.0"), ("method", Json.str "tools/list"),
        ("id", Json.num 1)]) "jsonrpc" ≠ some (Json.str "2.0")) ∧
    postMcp (fun _ => Except.ok Json.null)
        (Json.obj [("jsonrpc", Json.str "1.0"), ("method", Json.str "tools/list"),
          ("id", Json.num 1)]) =
      ({ status := 400,
         body := RpcOut.rpcError (-32600) "Invalid Request" none (some (Json.num 1)) },
       []) := by
  refine ⟨by simp [jsGet, Json.getField], ?_⟩
  rw [postMcp_invalid_jsonrpc _ _ (by simp [jsGet, Json.getField])]
  rfl

/-- C7: a POST /mcp body with jsonrpc 2.0 and a method that is neither
tools/list nor tools/call gets HTTP 400 with JSON-RPC error code -32601,
echoing the request id verbatim, and no handler is dispatched. -/
theorem postMcp_method_not_found (c : Collab) (body : Json)
    (h20 : jsGet body "jsonrpc" = some (Json.str "2.0"))
    (h1 : jsGet body "method" ≠ some (Json.str "tools/list"))
    (h2 : jsGet body "method" ≠ some (Json.str "tools/call")) :
    postMcp c body =
      ({ status := 400,
         body := RpcOut.rpcError (-32601) "Method not found" none (jsGet body "id") },
       []) := by
  unfold postMcp
  rw [h20, isMethod_eq_false _ _ h1, isMethod_eq_false _ _ h2]
  simp [isJsonRpc20]

/-- Witness for C7 at the spec example method nonexistent with id 2. -/
theorem postMcp_method_not_found_witness :
    postMcp (fun _ => Except.ok Json.null)
        (Json.obj [("jsonrpc", Json.str "2.0"), ("method", Json.str "nonexistent"),
          ("id", Json.num 2)]) =
      ({ status := 400,
         body := RpcOut.rpcError (-32601) "Method not found" none (some (Json.num 2)) },
       []) := by
  rw [postMcp_method_not_found _ _ (by rfl)
      (by rw [show jsGet (Json.obj [("jsonrpc", Json.str "2.0"), ("method", Json.str "nonexistent"),
          ("id", Json.num 2)]) "method" = some (Json.str "nonexistent") from rfl]; simp)
      (by rw [show jsGet (Json.obj [("jsonrpc", Json.str "2.0"), ("method", Json.str "nonexistent"),
          ("id", Json.num 2)]) "method" = some (Json.str "nonexistent") from rfl]; simp)]
  rfl

/-- C10: a POST /mcp tools/call with no params field at all raises out of
the handleCallTool destructuring (outside its try/catch), so the endpoint
answers with a protocol-level InternalError: HTTP 500, code -32603, an
error-shaped envelope, and no outbound request. -/
theorem postMcp_missing_params_internal (c : Collab) (body : Json)
    (h20 : jsGet body "jsonrpc" = some (Json.str "2.0"))
    (hm : jsGet body "method" = some (Json.str "tools/call"))
    (hp : jsGet body "params" = none) :
    (postMcp c body).1.status = 500 ∧
    (postMcp c body).1.body.errCode = some (-32603) ∧
    (postMcp c body).1.body.isResult = false ∧
    (postMcp c body).2 = [] := by
  unfold postMcp
  rw [h20, hm, hp]
  exact ⟨rfl, rfl, rfl, rfl⟩

/-- Witness for C10 at a concrete tools/call body carrying no params. -/
theorem postMcp_missing_params_internal_witness :
    ((postMcp (fun _ => Except.ok Json.null)
        (Json.obj [("jsonrpc", Json.str "2.0"), ("method", Json.str "tools/call"),
          ("id", Json.num 5)])).1.status = 500) ∧
    ((postMcp (fun _ => Except.ok Json.null)
        (Json.obj [("jsonrpc", Json.str "2.0"), ("method", Json.str "tools/call"),
          ("id", Json.num 5)])).1.body.errCode = some (-32603)) := by
  have h := postMcp_missing_params_internal (fun _ => Except.ok Json.null)
    (Json.obj [("jsonrpc", Json.str "2.0"), ("method", Json.str "tools/call"),
      ("id", Json.num 5)]) rfl rfl rfl
  exact ⟨h.1, h.2.1⟩

/-- C4 counterexample: a request with id 0 through the InvalidRequest
branch gets id null in the response — the id is not echoed verbatim for
falsy id values, because the branch computes `request.id || null`. -/
theorem postMcp_id_not_echoed :
    (jsGet (Json.obj [("jsonrpc", Json.str "1.0"), ("method", Json.str "tools/list"),
        ("id", Json.num 0)]) "id" = some (Json.num 0)) ∧
    ((postMcp (fun _ => Except.ok Json.null)
        (Json.obj [("jsonrpc", Json.str "1.0"), ("method", Json.str "tools/list"),
          ("id", Json.num 0)])).1.body.respId = some Json.null) ∧
    some Json.null ≠ some (Json.num 0) :=
  ⟨rfl, rfl, by simp⟩

/-- C4 amended: the success and MethodNotFound branches echo the request
id verbatim (including 0, empty string, false, and null), but the
InvalidRequest and InternalError branches compute `request.id || null`,
replacing every falsy id (0, empty string, false, null, absent) with
null. -/
theorem postMcp_id_echo_amended :
    (∀ (c : Collab) (body : Json), jsGet body "jsonrpc" ≠ some (Json.str "2.0") →
       (postMcp c body).1.body.respId = jsOrNull (jsGet body "id")) ∧
    (∀ (c : Collab) (body : Json), jsGet body "jsonrpc" = some (Json.str "2.0") →
       jsGet body "method" ≠ some (Json.str "tools/call") →
       (postMcp c body).1.body.respId = jsGet body "id") ∧
    (∀ (c : Collab) (body : Json) (r : ToolResult) (t : List OutboundRequest),
       jsGet body "jsonrpc" = some (Json.str "2.0") →
       jsGet body "method" = some (Json.str "tools/call") →
       handleCallTool c (jsGet body "params") = (Except.ok r, t) →
       (postMcp c body).1.body.respId = jsGet body "id") ∧
    (∀ (c : Collab) (body : Json) (e : String) (t : List OutboundRequest),
       jsGet body "jsonrpc" = some (Json.str "2.0") →
       jsGet body "method" = some (Json.str "tools/call") →
       handleCallTool c (jsGet body "params") = (Except.error e, t) →
       (postMcp c body).1.body.respId = jsOrNull (jsGet body "id")) := by
  refine ⟨?_, ?_, ?_, ?_⟩
  · intro c body h
    rw [postMcp_invalid_jsonrpc c body h]
    rfl
  · intro c body h20 hm
    unfold postMcp
    rw [h20, isMethod_eq_false _ _ hm]
    by_cases hl : isMethod (jsGet body "method") "tools/list" = true
    · rw [hl]; rfl
    · rw [Bool.not_eq_true] at hl; rw [hl]; rfl
  · intro c body r t h20 hm hh
    unfold postMcp
    rw [h20, hm, hh]
    rfl
  · intro c body e t h20 hm hh
    unfold postMcp
    rw [h20, hm, hh]
    rfl

/-- Witness for C4 amended, covering all four branches at concrete
bodies: InvalidRequest with falsy id 0, MethodNotFound echoing id 2,
tools/call success echoing id 7, and tools/call destructure failure with
absent id replaced by null. -/
theorem postMcp_id_echo_amended_witness :
    ((postMcp (fun _ => Except.ok Json.null)
        (Json.obj [("jsonrpc", Json.str "1.0"), ("id", Json.num 0)])).1.body.respId =
      some Json.null) ∧
    ((postMcp (fun _ => Except.ok Json.null)
        (Json.obj [("jsonrpc", Json.str "2.0"), ("method", Json.str "nonexistent"),
          ("id", Json.num 2)])).1.body.respId = some (Json.num 2)) ∧
    ((postMcp (fun _ => Except.ok Json.null)
        (Json.obj [("jsonrpc", Json.str "2.0"), ("method", Json.str "tools/call"),
          ("params", Json.obj [("name", Json.str "delete_dns_record"),
            ("arguments", Json.obj [])]),
          ("id", Json.num 7)])).1.body.respId = some (Json.num 7)) ∧
    ((postMcp (fun _ => Except.ok Json.null)
        (Json.obj [("jsonrpc", Json.str "2.0"), ("method", Json.str "tools/call")])).1.body.respId =
      some Json.null) := by
  refine ⟨?_, ?_, ?_, ?_⟩
  · rw [postMcp_id_echo_amended.1 (fun _ => Except.ok Json.null)
      (Json.obj [("jsonrpc", Json.str "1.0"), ("id", Json.num 0)])
      (by rw [show jsGet (Json.obj [("jsonrpc", Json.str "1.0"), ("id", Json.num 0)])
          "jsonrpc" = some (Json.str "1.0") from rfl]; simp)]
    rfl
  · rw [postMcp_id_echo_amended.2.1 (fun _ => Except.ok Json.null)
      (Json.obj [("jsonrpc", Json.str "2.0"), ("method", Json.str "nonexistent"),
        ("id", Json.num 2)]) rfl
      (by rw [show jsGet (Json.obj [("jsonrpc", Json.str "2.0"), ("method", Json.str "nonexistent"),
          ("id", Json.num 2)]) "method" = some (Json.str "nonexistent") from rfl]; simp)]
    rfl
  · rw [postMcp_id_echo_amended.2.2.1 (fun _ => Except.ok Json.null)
      (Json.obj [("jsonrpc", Json.str "2.0"), ("method", Json.str "tools/call"),
        ("params", Json.obj [("name", Json.str "delete_dns_record"),
          ("arguments", Json.obj [])]),
        ("id", Json.num 7)])
      (textResult "Successfully deleted DNS record undefined")
      [{ endpoint := "/v1/domains/undefined/dns/undefined", method := "DELETE", body := none }]
      rfl rfl rfl]
    rfl
  · rw [postMcp_id_echo_amended.2.2.2 (fun _ => Except.ok Json.null)
      (Json.obj [("jsonrpc", Json.str "2.0"), ("method", Json.str "tools/call")])
      "Cannot destructure property name of params as it is undefined" [] rfl rfl rfl]
    rfl

/-- C8: the tools listing is idempotent, order-stable, and side-effect
free — two invocations of either listing handler return descriptor
sequences equal element-for-element, and a tools/list POST issues no
outbound request and answers with the fixed catalog. -/
theorem listTools_idempotent :
    (∀ u v : Unit, listToolsIndex u = listToolsIndex v) ∧
    (∀ u v : Unit, handleListTools u = handleListTools v) ∧
    (∀ (c : Collab) (body : Json),
       jsGet body "jsonrpc" = some (Json.str "2.0") →
       jsGet body "method" = some (Json.str "tools/list") →
       postMcp c body =
         ({ status := 200,
            body := RpcOut.result (McpResult.tools (handleListTools ())) (jsGet body "id") },
          [])) := by
  refine ⟨fun _ _ => rfl, fun _ _ => rfl, ?_⟩
  intro c body h20 hl
  unfold postMcp
  rw [h20, hl]
  rfl

/-- Witness for C8 at a concrete tools/list body. -/
theorem listTools_idempotent_witness :
    postMcp (fun _ => Except.ok Json.null)
        (Json.obj [("jsonrpc", Json.str "2.0"), ("method", Json.str "tools/list"),
          ("id", Json.num 1)]) =
      ({ status := 200,
         body := RpcOut.result (McpResult.tools (handleListTools ())) (some (Json.num 1)) },
       []) := by
  rw [listTools_idempotent.2.2 (fun _ => Except.ok Json.null)
      (Json.obj [("jsonrpc", Json.str "2.0"), ("method", Json.str "tools/list"),
        ("id", Json.num 1)]) rfl rfl]
  rfl

/-- A ToolResult whose content is exactly one block of type text. -/
def IsSingletonText (r : ToolResult) : Prop :=
  ∃ s, r.content = [{ type := "text", text := s }]

/-- Every success value a HandlerOut can produce is a single text
block. -/
def OkSingleton (d : HandlerOut) : Prop :=
  ∀ r, d.1 = Except.ok r → IsSingletonText r

/-- A mapped render over the collaborator result only ever succeeds with
the rendered value. -/
theorem isSingletonText_of_map (e : Except String Json) (f : Json → ToolResult)
    (hf : ∀ j, IsSingletonText (f j)) (r : ToolResult) (h : e.map f = Except.ok r) :
    IsSingletonText r := by
  cases e with
  | ok j =>
    have hj : f j = r := by
      rw [show (Except.ok j : Except String Json).map f = Except.ok (f j) from rfl] at h
      exact Except.ok.inj h
    exact hj ▸ hf j
  | error m =>
    rw [show (Except.error m : Except String Json).map f = Except.error m from rfl] at h
    exact Except.noConfusion h

theorem okSingleton_listVPS (c : Collab) : OkSingleton (listVPS c) :=
  fun r h => isSingletonText_of_map _ _ (fun _ => ⟨_, rfl⟩) r h

theorem okSingleton_getVPS (c : Collab) (v : Option Json) : OkSingleton (getVPS c v) :=
  fun r h => isSingletonText_of_map _ _ (fun _ => ⟨_, rfl⟩) r h

theorem okSingleton_startVPS (c : Collab) (v : Option Json) : OkSingleton (startVPS c v) :=
  fun r h => isSingletonText_of_map _ _ (fun _ => ⟨_, rfl⟩) r h

theorem okSingleton_stopVPS (c : Collab) (v : Option Json) : OkSingleton (stopVPS c v) :=
  fun r h => isSingletonText_of_map _ _ (fun _ => ⟨_, rfl⟩) r h

theorem okSingleton_restartVPS (c : Collab) (v : Option Json) : OkSingleton (restartVPS c v) :=
  fun r h => isSingletonText_of_map _ _ (fun _ => ⟨_, rfl⟩) r h

theorem okSingleton_getVPSUsage (c : Collab) (v p : Option Json) :
    OkSingleton (getVPSUsage c v p) :=
  fun r h => isSingletonText_of_map _ _ (fun _ => ⟨_, rfl⟩) r h

theorem okSingleton_listDomains (c : Collab) : OkSingleton (listDomains c) :=
  fun r h => isSingletonText_of_map _ _ (fun _ => ⟨_, rfl⟩) r h

theorem okSingleton_getDomain (c : Collab) (d : Option Json) : OkSingleton (getDomain c d) :=
  fun r h => isSingletonText_of_map _ _ (fun _ => ⟨_, rfl⟩) r h

theorem okSingleton_getDomainDNS (c : Collab) (d : Option Json) :
    OkSingleton (getDomainDNS c d) :=
  fun r h => isSingletonText_of_map _ _ (fun _ => ⟨_, rfl⟩) r h

theorem okSingleton_createDNSRecord (c : Collab) (data : Option Json) :
    OkSingleton (createDNSRecord c data) := by
  intro r h
  unfold createDNSRecord at h
  split at h
  · exact Except.noConfusion h
  · exact Except.noConfusion h
  · exact isSingletonText_of_map _ _ (fun _ => ⟨_, rfl⟩) r h

theorem okSingleton_updateDNSRecord (c : Collab) (data : Option Json) :
    OkSingleton (updateDNSRecord c data) := by
  intro r h
  unfold updateDNSRecord at h
  split at h
  · exact Except.noConfusion h
  · exact Except.noConfusion h
  · exact isSingletonText_of_map _ _ (fun _ => ⟨_, rfl⟩) r h

theorem okSingleton_deleteDNSRecord (c : Collab) (d rec : Option Json) :
    OkSingleton (deleteDNSRecord c d rec) :=
  fun r h => isSingletonText_of_map _ _ (fun _ => ⟨_, rfl⟩) r h

theorem okSingleton_listHostingAccounts (c : Collab) : OkSingleton (listHostingAccounts c) :=
  fun r h => isSingletonText_of_map _ _ (fun _ => ⟨_, rfl⟩) r h

theorem okSingleton_getHostingAccount (c : Collab) (a : Option Json) :
    OkSingleton (getHostingAccount c a) :=
  fun r h => isSingletonText_of_map _ _ (fun _ => ⟨_, rfl⟩) r h

theorem okSingleton_getHostingUsage (c : Collab) (a : Option Json) :
    OkSingleton (getHostingUsage c a) :=
  fun r h => isSingletonText_of_map _ _ (fun _ => ⟨_, rfl⟩) r h

theorem okSingleton_listEmailAccounts (c : Collab) (d : Option Json) :
    OkSingleton (listEmailAccounts c d) :=
  fun r h => isSingletonText_of_map _ _ (fun _ => ⟨_, rfl⟩) r h

theorem okSingleton_createEmailAccount (c : Collab) (data : Option Json) :
    OkSingleton (createEmailAccount c data) := by
  intro r h
  unfold createEmailAccount at h
  split at h
  · exact Except.noConfusion h
  · exact Except.noConfusion h
  · exact isSingletonText_of_map _ _ (fun _ => ⟨_, rfl⟩) r h

theorem okSingleton_deleteEmailAccount (c : Collab) (d e : Option Json) :
    OkSingleton (deleteEmailAccount c d e) :=
  fun r h => isSingletonText_of_map _ _ (fun _ => ⟨_, rfl⟩) r h

theorem okSingleton_listSSLCertificates (c : Collab) : OkSingleton (listSSLCertificates c) :=
  fun r h => isSingletonText_of_map _ _ (fun _ => ⟨_, rfl⟩) r h

theorem okSingleton_getSSLCertificate (c : Collab) (i : Option Json) :
    OkSingleton (getSSLCertificate c i) :=
  fun r h => isSingletonText_of_map _ _ (fun _ => ⟨_, rfl⟩) r h

theorem okSingleton_createSSLCertificate (c : Collab) (data : Option Json) :
    OkSingleton (createSSLCertificate c data) :=
  fun r h => isSingletonText_of_map _ _ (fun _ => ⟨_, rfl⟩) r h

theorem okSingleton_listBackups (c : Collab) (i t : Option Json) :
    OkSingleton (listBackups c i t) :=
  fun r h => isSingletonText_of_map _ _ (fun _ => ⟨_, rfl⟩) r h

theorem okSingleton_createBackup (c : Collab) (data : Option Json) :
    OkSingleton (createBackup c data) := by
  intro r h
  unfold createBackup at h
  split at h
  · exact Except.noConfusion h
  · exact Except.noConfusion h
  · exact isSingletonText_of_map _ _ (fun _ => ⟨_, rfl⟩) r h

theorem okSingleton_restoreBackup (c : Collab) (b i : Option Json) :
    OkSingleton (restoreBackup c b i) :=
  fun r h => isSingletonText_of_map _ _ (fun _ => ⟨_, rfl⟩) r h

theorem okSingleton_getAccountInfo (c : Collab) : OkSingleton (getAccountInfo c) :=
  fun r h => isSingletonText_of_map _ _ (fun _ => ⟨_, rfl⟩) r h

theorem okSingleton_getInvoices (c : Collab) (p : Option Json) :
    OkSingleton (getInvoices c p) := by
  intro r h
  unfold getInvoices at h
  split at h
  · exact Except.noConfusion h
  · exact isSingletonText_of_map _ _ (fun _ => ⟨_, rfl⟩) r h

/-- Reading an argument first preserves the success-shape property. -/
theorem okSingleton_withArg (args : Option Json) (k : String)
    (f : Option Json → HandlerOut) (hf : ∀ v, OkSingleton (f v)) :
    OkSingleton (withArg args k f) := by
  intro r h
  unfold withArg at h
  split at h
  · exact Except.noConfusion h
  · exact hf _ r h

/-- Reading two arguments first preserves the success-shape property. -/
theorem okSingleton_withArg2 (args : Option Json) (k₁ k₂ : String)
    (f : Option Json → Option Json → HandlerOut)
    (hf : ∀ v w, OkSingleton (f v w)) :
    OkSingleton (withArg2 args k₁ k₂ f) := by
  intro r h
  unfold withArg2 at h
  split at h
  · exact Except.noConfusion h
  · split at h
    · exact Except.noConfusion h
    · exact hf _ _ r h

/-- Every success of the stdio dispatch switch is a single text block. -/
theorem okSingleton_dispatchIndex (c : Collab) (nm : String) (args : Option Json) :
    OkSingleton (dispatchIndex c nm args) := by
  unfold dispatchIndex
  split
  · exact okSingleton_listVPS c
  · exact okSingleton_withArg _ _ _ (okSingleton_getVPS c)
  · exact okSingleton_withArg _ _ _ (okSingleton_startVPS c)
  · exact okSingleton_withArg _ _ _ (okSingleton_stopVPS c)
  · exact okSingleton_withArg _ _ _ (okSingleton_restartVPS c)
  · exact okSingleton_withArg2 _ _ _ _ (okSingleton_getVPSUsage c)
  · exact okSingleton_listDomains c
  · exact okSingleton_withArg _ _ _ (okSingleton_getDomain c)
  · exact okSingleton_withArg _ _ _ (okSingleton_getDomainDNS c)
  · exact okSingleton_createDNSRecord c args
  · exact okSingleton_updateDNSRecord c args
  · exact okSingleton_withArg2 _ _ _ _ (okSingleton_deleteDNSRecord c)
  · exact okSingleton_listHostingAccounts c
  · exact okSingleton_withArg _ _ _ (okSingleton_getHostingAccount c)
  · exact okSingleton_withArg _ _ _ (okSingleton_getHostingUsage c)
  · exact okSingleton_withArg _ _ _ (okSingleton_listEmailAccounts c)
  · exact okSingleton_createEmailAccount c args
  · exact okSingleton_withArg2 _ _ _ _ (okSingleton_deleteEmailAccount c)
  · exact okSingleton_listSSLCertificates c
  · exact okSingleton_withArg _ _ _ (okSingleton_getSSLCertificate c)
  · exact okSingleton_createSSLCertificate c args
  · exact okSingleton_withArg2 _ _ _ _ (okSingleton_listBackups c)
  · exact okSingleton_createBackup c args
  · exact okSingleton_withArg2 _ _ _ _ (okSingleton_restoreBackup c)
  · exact okSingleton_getAccountInfo c
  · exact okSingleton_getInvoices c args
  · exact fun r h => Except.noConfusion h

/-- Every success of the string-keyed Express switch is a single text
block. -/
theorem okSingleton_dispatchExpressStr (c : Collab) (s : String) (args : Option Json) :
    OkSingleton (dispatchExpressStr c s args) := by
  unfold dispatchExpressStr
  split
  · exact okSingleton_listVPS c
  · exact okSingleton_withArg _ _ _ (okSingleton_getVPS c)
  · exact okSingleton_withArg _ _ _ (okSingleton_startVPS c)
  · exact okSingleton_withArg _ _ _ (okSingleton_stopVPS c)
  · exact okSingleton_withArg _ _ _ (okSingleton_restartVPS c)
  · exact okSingleton_withArg2 _ _ _ _ (okSingleton_getVPSUsage c)
  · exact okSingleton_listDomains c
  · exact okSingleton_withArg _ _ _ (okSingleton_getDomain c)
  · exact okSingleton_withArg _ _ _ (okSingleton_getDomainDNS c)
  · exact okSingleton_createDNSRecord c args
  · exact okSingleton_updateDNSRecord c args
  · exact okSingleton_withArg2 _ _ _ _ (okSingleton_deleteDNSRecord c)
  · exact okSingleton_listHostingAccounts c
  · exact okSingleton_withArg _ _ _ (okSingleton_getHostingAccount c)
  · exact okSingleton_withArg _ _ _ (okSingleton_getHostingUsage c)
  · exact okSingleton_withArg _ _ _ (okSingleton_listEmailAccounts c)
  · exact okSingleton_createEmailAccount c args
  · exact okSingleton_withArg2 _ _ _ _ (okSingleton_deleteEmailAccount c)
  · exact okSingleton_getAccountInfo c
  · exact fun r h => Except.noConfusion h

/-- Every success of the Express dispatch is a single text block. -/
theorem okSingleton_dispatchExpress (c : Collab) (nm args : Option Json) :
    OkSingleton (dispatchExpress c nm args) := by
  unfold dispatchExpress
  match nm with
  | some (Json.str s) => exact okSingleton_dispatchExpressStr c s args
  | none => exact fun r h => Except.noConfusion h
  | some Json.null => exact fun r h => Except.noConfusion h
  | some (Json.bool b) => exact fun r h => Except.noConfusion h
  | some (Json.num n) => exact fun r h => Except.noConfusion h
  | some (Json.arr xs) => exact fun r h => Except.noConfusion h
  | some (Json.obj fs) => exact fun r h => Except.noConfusion h

/-- The catch wrapper always yields a single text block when the
dispatch it wraps has the success-shape property. -/
theorem isSingletonText_runDispatch (d : HandlerOut) (hd : OkSingleton d) :
    IsSingletonText (runDispatch d).1 := by
  unfold runDispatch
  cases h : d.1 with
  | ok r => exact hd r h
  | error e => exact ⟨"Error: " ++ e, rfl⟩

/-- C9: every value returned by callTool — on handler success and on
handler failure alike — is a ToolResult whose content is exactly one
block of type text with a string text field; over the Express transport
the same holds of every tool-call result handleCallTool returns. -/
theorem callTool_single_text_block :
    (∀ (c : Collab) (nm : String) (args : Option Json),
       IsSingletonText (callToolIndex c nm args).1) ∧
    (∀ (c : Collab) (params : Option Json) (r : ToolResult),
       (handleCallTool c params).1 = Except.ok r → IsSingletonText r) := by
  constructor
  · intro c nm args
    exact isSingletonText_runDispatch _ (okSingleton_dispatchIndex c nm args)
  · intro c params r h
    match params with
    | none => exact Except.noConfusion h
    | some Json.null => exact Except.noConfusion h
    | some (Json.bool b) =>
      exact Except.ok.inj h ▸ isSingletonText_runDispatch _ (okSingleton_dispatchExpress c _ _)
    | some (Json.num n) =>
      exact Except.ok.inj h ▸ isSingletonText_runDispatch _ (okSingleton_dispatchExpress c _ _)
    | some (Json.str s) =>
      exact Except.ok.inj h ▸ isSingletonText_runDispatch _ (okSingleton_dispatchExpress c _ _)
    | some (Json.arr xs) =>
      exact Except.ok.inj h ▸ isSingletonText_runDispatch _ (okSingleton_dispatchExpress c _ _)
    | some (Json.obj fs) =>
      exact Except.ok.inj h ▸ isSingletonText_runDispatch _ (okSingleton_dispatchExpress c _ _)

/-- Witness for C9 at a failing call (unknown-argument read) and at a
succeeding Express tool call. -/
theorem callTool_single_text_block_witness :
    IsSingletonText (callToolIndex (fun _ => Except.ok Json.null) "list_vps" none).1 ∧
    IsSingletonText (textResult "Successfully deleted DNS record undefined") := by
  constructor
  · exact callTool_single_text_block.1 (fun _ => Except.ok Json.null) "list_vps" none
  · exact callTool_single_text_block.2 (fun _ => Except.ok Json.null)
      (some (Json.obj [("name", Json.str "delete_dns_record"), ("arguments", Json.obj [])]))
      (textResult "Successfully deleted DNS record undefined") rfl
